import Mathlib

/-!
# Verification of the E-Commerce Product Catalog GraphQL resolver engine

A shallow embedding of the resolver logic in `index.js`: the credential
service (password hashing, token issue/verify — library behaviour modelled
from the spec, the call sites are repository code), the authorization guard,
the query filter builder, and the CRUD resolvers over an abstract document
store modelled as lists of records.

JavaScript numbers appearing as GraphQL `Float` are modelled as `Rat`,
GraphQL `Int` as `Int`; MongoDB object ids are modelled as `Nat`.
Asynchronous resolvers are pure state-passing functions: each resolver takes
the store state and returns `Except ApiError result × State`, the returned
state being the (unchanged) input state on every error path, mirroring that
a thrown error performs no write.
-/

set_option autoImplicit false

namespace Catalog

/-! ## Data model (mongoose schemas, lines 27–40 of index.js) -/

/-- A catalog item (the `Product` mongoose model). The schema's optional text
fields are modelled as plain strings (an absent field is `""`), the optional
rating as a plain rational. -/
structure Product where
  id : Nat
  name : String
  description : String
  price : Rat
  category : String
  brand : String
  rating : Rat
deriving DecidableEq, Repr

/-- A bcrypt hash value: the salt together with a digest derived from the
plaintext and the salt. -/
structure BcryptHash where
  salt : Nat
  digest : Nat
deriving DecidableEq, Repr

/-- A deterministic digest of a string, standing in for the bcrypt key
derivation over the password bytes. -/
def strDigest (s : String) : Nat :=
  s.data.foldl (fun h c => h * 1114112 + c.toNat + 1) 0

/-- Modelled from the spec: `bcrypt.hash(plaintext, cost)` (library code, not
in the repository) — a one-way, salted hash; "deterministic-to-verify but not
reversible". The nondeterministically generated salt is an explicit
parameter; the digest is a deterministic function of plaintext and salt. -/
def bcryptHash (plaintext : String) (salt : Nat) : BcryptHash :=
  ⟨salt, strDigest plaintext + salt⟩

/-- Modelled from the spec: `bcrypt.compare(plaintext, hash)` — verifies via
the hash's own salt ("the hashing algorithm's own verify path"). -/
def bcryptCompare (plaintext : String) (h : BcryptHash) : Bool :=
  bcryptHash plaintext h.salt == h

/-- An account record (the `User` mongoose model); the password is stored
only as a `BcryptHash`, never as plaintext. -/
structure User where
  id : Nat
  username : String
  password : BcryptHash
  isAdmin : Bool
deriving DecidableEq, Repr

/-- The document store: Product and User collections plus the store-assigned
id counters. -/
structure State where
  products : List Product
  users : List User
  nextProductId : Nat
  nextUserId : Nat
deriving DecidableEq, Repr

/-! ## Tokens and identity (jsonwebtoken + the context function, lines 139–143
and 206–218) -/

/-- The claims carried by a signed token: `{ id: user._id, isAdmin }`. -/
structure Payload where
  id : Nat
  isAdmin : Bool
deriving DecidableEq, Repr

/-- A presented bearer credential: either a well-formed signed token (its
payload, the key it was signed with, and its expiry instant) or a malformed
string that does not parse as a token at all. -/
inductive Token where
  | signed (payload : Payload) (secret : String) (exp : Nat)
  | malformed (raw : String)
deriving DecidableEq, Repr

/-- The three reasons `jwt.verify` can reject a token. -/
inductive JwtError where
  | malformedToken
  | expired
  | invalidSignature
deriving DecidableEq, Repr

/-- Modelled from the spec: `jwt.sign(payload, secret, { expiresIn: "1d" })` —
produces a token bound to the signing key with a fixed expiry. -/
def jwtSign (p : Payload) (secret : String) (exp : Nat) : Token :=
  .signed p secret exp

/-- Modelled from the spec: `jwt.verify(token, secret)` — rejects a token that
is malformed, signature-invalid, or expired; on success returns the decoded
payload exactly as it was at issuance time. -/
def jwtVerify (t : Token) (secret : String) (now : Nat) : Except JwtError Payload :=
  match t with
  | .malformed _ => .error .malformedToken
  | .signed p s exp =>
      if s != secret then .error .invalidSignature
      else if exp ≤ now then .error .expired
      else .ok p

/-- The request context function (lines 206–218): if a token is presented,
`jwt.verify` it inside a try/catch; any verification failure is swallowed
(only logged) and the request proceeds with `user = null`, exactly as when no
credential was presented. A total function — it never throws. -/
def resolveIdentity (tok : Option Token) (secret : String) (now : Nat) : Option Payload :=
  match tok with
  | none => none
  | some t => (jwtVerify t secret now).toOption

/-! ## Errors thrown by resolvers -/

/-- The business-logic errors the resolvers throw, by their exact message. -/
inductive ApiError where
  | unauthorized
  | conflict
  | userNotFound
  | invalidCredentials
  | productNotFound
deriving DecidableEq, Repr

/-- The literal `Error` message each failure carries in index.js. -/
def ApiError.message : ApiError → String
  | .unauthorized => "Unauthorized"
  | .conflict => "Username already exists"
  | .userNotFound => "User not found"
  | .invalidCredentials => "Invalid credentials"
  | .productNotFound => "Product not found"

/-! ## The authorization guard -/

/-- The JavaScript condition `user?.isAdmin` coerced to a boolean: `false`
when no identity context is present, otherwise the context's `isAdmin` flag.
Every mutating resolver throws Unauthorized when this is `false`. -/
def isAdminUser : Option Payload → Bool
  | none => false
  | some p => p.isAdmin

/-! ## The products query (lines 76–104): filter builder and plan execution -/

/-- JavaScript truthiness of an optional string argument: `undefined` and the
empty string are falsy. -/
def truthyStr : Option String → Bool
  | none => false
  | some s => s != ""

/-- JavaScript truthiness of an optional Float argument: `undefined` and `0`
are falsy. -/
def truthyRat : Option Rat → Bool
  | none => false
  | some q => q != 0

/-- JavaScript truthiness of an optional Int argument: `undefined` and `0`
are falsy. -/
def truthyInt : Option Int → Bool
  | none => false
  | some i => i != 0

/-- The arguments of the `products` query; every argument is optional. -/
structure ProductsArgs where
  category : Option String := none
  brand : Option String := none
  minPrice : Option Rat := none
  maxPrice : Option Rat := none
  sortBy : Option String := none
  limit : Option Int := none
  skip : Option Int := none
deriving DecidableEq, Repr

/-- The price sub-filter `{ $gte?, $lte? }` built on line 92–95. -/
structure PriceFilter where
  gte : Option Rat
  lte : Option Rat
deriving DecidableEq, Repr

/-- The MongoDB filter document built by lines 88–95. -/
structure Filter where
  category : Option String := none
  brand : Option String := none
  price : Option PriceFilter := none
deriving DecidableEq, Repr

/-- Lines 88–95: each argument contributes to the filter only when truthy;
the price key appears when at least one bound is truthy and then carries
`$gte`/`$lte` for each truthy bound. -/
def buildFilter (args : ProductsArgs) : Filter :=
  { category := if truthyStr args.category then args.category else none
    brand := if truthyStr args.brand then args.brand else none
    price :=
      if truthyRat args.minPrice || truthyRat args.maxPrice then
        some { gte := if truthyRat args.minPrice then args.minPrice else none
               lte := if truthyRat args.maxPrice then args.maxPrice else none }
      else none }

/-- A price satisfies the price sub-filter: both present bounds are
inclusive. -/
def matchesPrice (pf : PriceFilter) (price : Rat) : Bool :=
  (match pf.gte with | none => true | some g => decide (g ≤ price)) &&
  (match pf.lte with | none => true | some l => decide (price ≤ l))

/-- A product matches the filter document: conjunction of the exact-match
equality filters and the price range. -/
def matchesFilter (f : Filter) (p : Product) : Bool :=
  (match f.category with | none => true | some c => p.category == c) &&
  (match f.brand with | none => true | some b => p.brand == b) &&
  (match f.price with | none => true | some pf => matchesPrice pf p.price)

/-- Boolean comparison `p ≤ q` on the product field named by the mongoose
sort key; an unrecognized field name compares everything equal, leaving the
order unchanged. -/
def fieldLe (field : String) (p q : Product) : Bool :=
  match field with
  | "name" => p.name ≤ q.name
  | "description" => p.description ≤ q.description
  | "price" => decide (p.price ≤ q.price)
  | "category" => p.category ≤ q.category
  | "brand" => p.brand ≤ q.brand
  | "rating" => decide (p.rating ≤ q.rating)
  | _ => true

/-- Stable insertion of a product into an already sorted list: `p` goes in
front of the first element it is `le`-below-or-equal. -/
def insertLe (le : Product → Product → Bool) (p : Product) : List Product → List Product
  | [] => [p]
  | q :: qs => if le p q then p :: q :: qs else q :: insertLe le p qs

/-- Stable insertion sort under a boolean `le`. -/
def sortLe (le : Product → Product → Bool) : List Product → List Product
  | [] => []
  | p :: ps => insertLe le p (sortLe le ps)

/-- `query.sort(field)` (line 98): ascending by the named field; a leading
`-` sorts descending. -/
def sortProducts (field : String) (l : List Product) : List Product :=
  if field.startsWith "-" then sortLe (fun p q => fieldLe (field.drop 1) q p) l
  else sortLe (fieldLe field) l

/-- The `products` resolver (lines 87–103): build the filter from truthy
arguments, then apply sort, skip and limit — each stage only when its
argument is truthy. -/
def productsResolve (args : ProductsArgs) (store : List Product) : List Product :=
  let filtered := store.filter (matchesFilter (buildFilter args))
  let sorted :=
    if truthyStr args.sortBy then sortProducts (args.sortBy.getD "") filtered else filtered
  let skipped :=
    if truthyInt args.skip then sorted.drop (args.skip.getD 0).toNat else sorted
  if truthyInt args.limit then skipped.take (args.limit.getD 0).toNat else skipped

/-! ## The remaining resolvers (lines 69–75 and 112–189) -/

/-- The `me` query (lines 69–75): throws Unauthorized when no identity
context is present, otherwise `User.findById(user.id)` — which may itself be
`null` (no error) if the account no longer exists. -/
def me (user : Option Payload) (st : State) : Except ApiError (Option User) × State :=
  match user with
  | none => (.error .unauthorized, st)
  | some py => (.ok (st.users.find? (fun u => u.id == py.id)), st)

/-- The `register` mutation (lines 119–125): `User.findOne({ username })`;
Conflict if a user already exists; otherwise store the bcrypt hash
(the fresh salt is an explicit parameter) with `isAdmin: isAdmin || false`
and return the text "User registered". -/
def register (username password : String) (isAdmin : Option Bool) (salt : Nat)
    (st : State) : Except ApiError String × State :=
  match st.users.find? (fun u => u.username == username) with
  | some _ => (.error .conflict, st)
  | none =>
      let u : User := ⟨st.nextUserId, username, bcryptHash password salt, isAdmin.getD false⟩
      (.ok "User registered",
       { st with users := st.users ++ [u], nextUserId := st.nextUserId + 1 })

/-- The `login` mutation (lines 133–145): NotFound if the username is absent,
InvalidCredentials if `bcrypt.compare` rejects, otherwise a token signed over
`{ id, isAdmin }` expiring one day (86400 seconds) after `now`. No branch
writes to the store. -/
def login (username password secret : String) (now : Nat)
    (st : State) : Except ApiError Token × State :=
  match st.users.find? (fun u => u.username == username) with
  | none => (.error .userNotFound, st)
  | some u =>
      if bcryptCompare password u.password then
        (.ok (jwtSign ⟨u.id, u.isAdmin⟩ secret (now + 86400)), st)
      else (.error .invalidCredentials, st)

/-- The arguments of `addProduct` (lines 149–156): name and price are
non-null, the rest optional. -/
structure AddProductArgs where
  name : String
  description : Option String := none
  price : Rat
  category : Option String := none
  brand : Option String := none
  rating : Option Rat := none
deriving DecidableEq, Repr

/-- The `addProduct` mutation (lines 157–160): guard first
(`if (!user?.isAdmin) throw`), then `new Product(args).save()` with a
store-assigned id; absent optional fields are stored empty. -/
def addProduct (args : AddProductArgs) (user : Option Payload)
    (st : State) : Except ApiError Product × State :=
  if !(isAdminUser user) then (.error .unauthorized, st)
  else
    let p : Product :=
      { id := st.nextProductId
        name := args.name
        description := args.description.getD ""
        price := args.price
        category := args.category.getD ""
        brand := args.brand.getD ""
        rating := args.rating.getD 0 }
    (.ok p, { st with products := st.products ++ [p], nextProductId := st.nextProductId + 1 })

/-- The arguments of `updateProduct` (lines 164–172): the id is non-null,
every field optional. -/
structure UpdateProductArgs where
  id : Nat
  name : Option String := none
  description : Option String := none
  price : Option Rat := none
  category : Option String := none
  brand : Option String := none
  rating : Option Rat := none
deriving DecidableEq, Repr

/-- The partial field replace performed by `findByIdAndUpdate(args.id, args)`:
only the supplied fields overwrite (mongoose drops `undefined` keys; the `id`
key is not a schema path and is ignored). -/
def applyUpdate (args : UpdateProductArgs) (p : Product) : Product :=
  { p with
    name := args.name.getD p.name
    description := args.description.getD p.description
    price := args.price.getD p.price
    category := args.category.getD p.category
    brand := args.brand.getD p.brand
    rating := args.rating.getD p.rating }

/-- Replace the first product carrying the given id. -/
def updateFirst (i : Nat) (f : Product → Product) : List Product → List Product
  | [] => []
  | p :: ps => if p.id == i then f p :: ps else p :: updateFirst i f ps

/-- The `updateProduct` mutation (lines 173–178): guard first, then
`findByIdAndUpdate` with `{ new: true }`; NotFound when the id matches no
product. -/
def updateProduct (args : UpdateProductArgs) (user : Option Payload)
    (st : State) : Except ApiError Product × State :=
  if !(isAdminUser user) then (.error .unauthorized, st)
  else
    match st.products.find? (fun p => p.id == args.id) with
    | none => (.error .productNotFound, st)
    | some p =>
        (.ok (applyUpdate args p),
         { st with products := updateFirst args.id (applyUpdate args) st.products })

/-- The `deleteProduct` mutation (lines 183–188): guard first, then
`findByIdAndDelete`; NotFound when the id matches no product, otherwise the
text "Product deleted successfully". -/
def deleteProduct (pid : Nat) (user : Option Payload)
    (st : State) : Except ApiError String × State :=
  if !(isAdminUser user) then (.error .unauthorized, st)
  else
    match st.products.find? (fun p => p.id == pid) with
    | none => (.error .productNotFound, st)
    | some _ =>
        (.ok "Product deleted successfully",
         { st with products := st.products.eraseP (fun p => p.id == pid) })

/-! ## Concrete fixtures used to instantiate the theorems -/

/-- A five-product catalog used as a concrete store. -/
def wProducts : List Product :=
  [⟨1, "A", "", 5, "toys", "acme", 3⟩,
   ⟨2, "B", "", 10, "toys", "bolt", 4⟩,
   ⟨3, "C", "", 15, "food", "acme", 2⟩,
   ⟨4, "D", "", 20, "food", "bolt", 5⟩,
   ⟨5, "E", "", 25, "toys", "acme", 1⟩]

/-- A registered non-admin account. -/
def wAlice : User := ⟨1, "alice", bcryptHash "pw1" 42, false⟩

/-- A concrete store state holding the five products and alice. -/
def wState : State := ⟨wProducts, [wAlice], 6, 2⟩

end Catalog

namespace Catalog

/-! ## Helper lemmas about the filter predicate -/

/-- Filtering with the empty filter document keeps every product. -/
theorem filter_matches_empty (l : List Product) :
    l.filter (matchesFilter { category := none, brand := none, price := none }) = l := by
  have h : l.filter (matchesFilter { category := none, brand := none, price := none })
      = l.filter (fun _ => true) :=
    List.filter_congr fun p _ => rfl
  rw [h, List.filter_true]

/-- Filtering on a category-only filter document is the equality filter on
the category field. -/
theorem filter_matches_category (c : String) (l : List Product) :
    l.filter (matchesFilter { category := some c, brand := none, price := none })
      = l.filter (fun p => p.category == c) :=
  List.filter_congr fun p _ => by simp [matchesFilter]

/-- Filtering on a two-sided price filter document is the closed-interval
test on the price field. -/
theorem filter_matches_price_both (mn mx : Rat) (l : List Product) :
    l.filter (matchesFilter
        { category := none, brand := none, price := some { gte := some mn, lte := some mx } })
      = l.filter (fun p => decide (mn ≤ p.price) && decide (p.price ≤ mx)) :=
  List.filter_congr fun p _ => by simp [matchesFilter, matchesPrice]

/-- Filtering on a lower-bound-only price filter document is the single
inclusive lower-bound test. -/
theorem filter_matches_price_gte (mn : Rat) (l : List Product) :
    l.filter (matchesFilter
        { category := none, brand := none, price := some { gte := some mn, lte := none } })
      = l.filter (fun p => decide (mn ≤ p.price)) :=
  List.filter_congr fun p _ => by simp [matchesFilter, matchesPrice]

/-- Filtering on an upper-bound-only price filter document is the single
inclusive upper-bound test. -/
theorem filter_matches_price_lte (mx : Rat) (l : List Product) :
    l.filter (matchesFilter
        { category := none, brand := none, price := some { gte := none, lte := some mx } })
      = l.filter (fun p => decide (p.price ≤ mx)) :=
  List.filter_congr fun p _ => by simp [matchesFilter, matchesPrice]

/-! ## C1 — mutations without admin identity fail Unauthorized, store untouched -/

/-- C1: every invocation of `addProduct`, `updateProduct` or `deleteProduct`
whose identity context is absent or carries `isAdmin = false` fails with the
Unauthorized error and returns the store state unchanged — the guard runs
before the repository is touched. -/
theorem mutations_without_admin_fail_unauthorized
    (aargs : AddProductArgs) (uargs : UpdateProductArgs) (pid : Nat)
    (user : Option Payload) (st : State)
    (h : user = none ∨ ∃ py, user = some py ∧ py.isAdmin = false) :
    addProduct aargs user st = (Except.error ApiError.unauthorized, st) ∧
    updateProduct uargs user st = (Except.error ApiError.unauthorized, st) ∧
    deleteProduct pid user st = (Except.error ApiError.unauthorized, st) := by
  have hguard : isAdminUser user = false := by
    rcases h with rfl | ⟨py, rfl, hpy⟩
    · rfl
    · simpa [isAdminUser] using hpy
  exact ⟨by simp [addProduct, hguard], by simp [updateProduct, hguard],
         by simp [deleteProduct, hguard]⟩

/-- C1 witness: the guard fires on the concrete store for an anonymous
caller. -/
theorem mutations_without_admin_fail_unauthorized_witness :
    addProduct { name := "W", price := 1 } none wState
      = (Except.error ApiError.unauthorized, wState) ∧
    updateProduct { id := 1 } none wState
      = (Except.error ApiError.unauthorized, wState) ∧
    deleteProduct 1 none wState = (Except.error ApiError.unauthorized, wState) :=
  mutations_without_admin_fail_unauthorized
    { name := "W", price := 1 } { id := 1 } 1 none wState (Or.inl rfl)

/-! ## C2 — where the guard sits: mutations require admin, `me` only requires
an identity -/

/-- C2 counterexample: the claim says the admin guard also protects the `me`
read, so an authenticated non-admin caller should fail with Unauthorized —
but on the code a non-admin identity context passes `me`'s presence check and
the query succeeds. -/
theorem me_admits_nonadmin_caller :
    me (some ⟨1, false⟩) wState = (Except.ok (some wAlice), wState) ∧
    (Except.ok (some wAlice) : Except ApiError (Option User))
      ≠ Except.error ApiError.unauthorized := by
  exact ⟨rfl, by simp⟩

/-- C2 amended: the admin guard is applied before each of the three mutating
operations, and there an anonymous caller and an authenticated non-admin
caller produce the identical Unauthorized failure; the `me` read is guarded
only by presence of an identity — anonymous callers get the same Unauthorized
error, but an authenticated non-admin succeeds. -/
theorem guard_on_mutations_and_me_presence_guard
    (aargs : AddProductArgs) (uargs : UpdateProductArgs) (pid : Nat)
    (py : Payload) (st : State) (hpy : py.isAdmin = false) :
    addProduct aargs none st = (Except.error ApiError.unauthorized, st) ∧
    addProduct aargs (some py) st = addProduct aargs none st ∧
    updateProduct uargs none st = (Except.error ApiError.unauthorized, st) ∧
    updateProduct uargs (some py) st = updateProduct uargs none st ∧
    deleteProduct pid none st = (Except.error ApiError.unauthorized, st) ∧
    deleteProduct pid (some py) st = deleteProduct pid none st ∧
    me none st = (Except.error ApiError.unauthorized, st) ∧
    me (some py) st = (Except.ok (st.users.find? (fun u => u.id == py.id)), st) := by
  refine ⟨?_, ?_, ?_, ?_, ?_, ?_, rfl, rfl⟩ <;>
    simp [addProduct, updateProduct, deleteProduct, isAdminUser, hpy]

/-- C2 witness: the amended statement at the concrete store, with alice's
non-admin identity. -/
theorem guard_on_mutations_and_me_presence_guard_witness :
    addProduct { name := "W", price := 1 } none wState
      = (Except.error ApiError.unauthorized, wState) ∧
    addProduct { name := "W", price := 1 } (some ⟨1, false⟩) wState
      = addProduct { name := "W", price := 1 } none wState ∧
    updateProduct { id := 1 } none wState
      = (Except.error ApiError.unauthorized, wState) ∧
    updateProduct { id := 1 } (some ⟨1, false⟩) wState
      = updateProduct { id := 1 } none wState ∧
    deleteProduct 1 none wState = (Except.error ApiError.unauthorized, wState) ∧
    deleteProduct 1 (some ⟨1, false⟩) wState = deleteProduct 1 none wState ∧
    me none wState = (Except.error ApiError.unauthorized, wState) ∧
    me (some ⟨1, false⟩) wState
      = (Except.ok (wState.users.find? (fun u => u.id == (1 : Nat))), wState) :=
  guard_on_mutations_and_me_presence_guard
    { name := "W", price := 1 } { id := 1 } 1 ⟨1, false⟩ wState rfl

/-! ## C4 — every token verification failure collapses to "no identity" -/

/-- C4: identity resolution never throws (it is a total function into
`Option Payload`), and a malformed token, a token signed with the wrong key,
and an expired token all resolve to the same value `none` that an absent
credential resolves to — nothing distinguishes which of the three reasons
applied. -/
theorem token_failures_collapse_to_no_identity
    (raw secret s : String) (py : Payload) (exp now : Nat) :
    resolveIdentity none secret now = none ∧
    resolveIdentity (some (Token.malformed raw)) secret now = none ∧
    (s ≠ secret → resolveIdentity (some (Token.signed py s exp)) secret now = none) ∧
    (exp ≤ now → resolveIdentity (some (Token.signed py secret exp)) secret now = none) := by
  refine ⟨rfl, rfl, ?_, ?_⟩
  · intro hs
    simp [resolveIdentity, jwtVerify, hs, Except.toOption]
  · intro hexp
    simp [resolveIdentity, jwtVerify, hexp, Except.toOption]

/-- C4 witness: the three failure modes at concrete tokens all resolve to no
identity. -/
theorem token_failures_collapse_to_no_identity_witness :
    ("bad" : String) ≠ "sec" ∧ (5 : Nat) ≤ 9 ∧
    resolveIdentity (some (Token.malformed "x")) "sec" 9 = none ∧
    resolveIdentity (some (Token.signed ⟨1, true⟩ "bad" 7)) "sec" 9 = none ∧
    resolveIdentity (some (Token.signed ⟨1, true⟩ "sec" 5)) "sec" 9 = none := by
  have h := token_failures_collapse_to_no_identity "x" "sec" "bad" ⟨1, true⟩ 5 9
  have h' := token_failures_collapse_to_no_identity "x" "sec" "bad" ⟨1, true⟩ 7 9
  exact ⟨by decide, by decide, h.2.1, h'.2.2.1 (by decide), h.2.2.2 (by decide)⟩

/-! ## C3 — the price range filter -/

/-- C3 counterexample: with `minPrice = 3` and `maxPrice = 0` both supplied
and `minPrice > maxPrice`, the result over a store holding a product priced 5
is that product — not the empty set the claim promises (and not the interval
`[3, 0]` either): a supplied bound of `0` is falsy in JavaScript and imposes
no constraint. -/
theorem price_range_zero_max_not_empty :
    (0 : Rat) < 3 ∧
    productsResolve { minPrice := some 3, maxPrice := some 0 }
        [⟨1, "A", "", 5, "", "", 0⟩]
      = [⟨1, "A", "", 5, "", "", 0⟩] := by
  exact ⟨by norm_num, by decide⟩

/-- C3 amended: for nonzero supplied bounds the claim holds — both bounds
give the inclusive closed interval `[minPrice, maxPrice]`, a single nonzero
bound gives that single inclusive bound, and `minPrice > maxPrice` yields the
empty result set (the resolver is total: it cannot fail). A supplied bound of
`0` is treated as absent. -/
theorem price_range_inclusive_bounds
    (mn mx : Rat) (hmn : mn ≠ 0) (hmx : mx ≠ 0) (store : List Product) :
    productsResolve { minPrice := some mn, maxPrice := some mx } store
      = store.filter (fun p => decide (mn ≤ p.price) && decide (p.price ≤ mx)) ∧
    productsResolve { minPrice := some mn } store
      = store.filter (fun p => decide (mn ≤ p.price)) ∧
    productsResolve { maxPrice := some mx } store
      = store.filter (fun p => decide (p.price ≤ mx)) ∧
    (mx < mn →
      productsResolve { minPrice := some mn, maxPrice := some mx } store = []) := by
  have hboth :
      productsResolve { minPrice := some mn, maxPrice := some mx } store
        = store.filter (fun p => decide (mn ≤ p.price) && decide (p.price ≤ mx)) := by
    simp [productsResolve, buildFilter, truthyStr, truthyRat, truthyInt, hmn, hmx,
      filter_matches_price_both]
  refine ⟨hboth, ?_, ?_, ?_⟩
  · simp [productsResolve, buildFilter, truthyStr, truthyRat, truthyInt, hmn,
      filter_matches_price_gte]
  · simp [productsResolve, buildFilter, truthyStr, truthyRat, truthyInt, hmx,
      filter_matches_price_lte]
  · intro hlt
    rw [hboth]
    refine List.filter_eq_nil_iff.mpr ?_
    intro p _
    simp only [Bool.and_eq_true, decide_eq_true_eq, not_and]
    intro h1 h2
    exact absurd (h1.trans h2) (not_le.mpr hlt)

/-- C3 witness: the amended statement at nonzero bounds 10 and 20 over the
concrete five-product store. -/
theorem price_range_inclusive_bounds_witness :
    (10 : Rat) ≠ 0 ∧ (20 : Rat) ≠ 0 ∧
    productsResolve { minPrice := some 10, maxPrice := some 20 } wProducts
      = wProducts.filter
          (fun p => decide ((10 : Rat) ≤ p.price) && decide (p.price ≤ (20 : Rat))) :=
  ⟨by norm_num, by norm_num,
   (price_range_inclusive_bounds 10 20 (by norm_num) (by norm_num) wProducts).1⟩

/-! ## C9 — category round-trip and pagination -/

/-- C9: a `products` query filtering on a (nonempty) category returns exactly
the stored products whose category equals it, regardless of every other
field; and `products(skip = 2, limit = 3)` over a store of at least five
products (under the given sort — here the store's own order, no sort
argument) returns exactly the items at ordinal positions 3 through 5
(1-indexed), that is, three items. -/
theorem category_filter_and_pagination_exact
    (c : String) (store : List Product) (hc : c ≠ "") (h5 : 5 ≤ store.length) :
    productsResolve { category := some c } store
      = store.filter (fun p => p.category == c) ∧
    productsResolve { skip := some 2, limit := some 3 } store
      = (store.drop 2).take 3 ∧
    ((store.drop 2).take 3).length = 3 := by
  refine ⟨?_, ?_, ?_⟩
  · simp [productsResolve, buildFilter, truthyStr, truthyRat, truthyInt, hc,
      filter_matches_category]
  · simp [productsResolve, buildFilter, truthyStr, truthyRat, truthyInt,
      filter_matches_empty]
  · simp only [List.length_take, List.length_drop]
    omega

/-- C9 witness: the concrete five-product store with category "toys". -/
theorem category_filter_and_pagination_exact_witness :
    ("toys" : String) ≠ "" ∧ 5 ≤ wProducts.length ∧
    productsResolve { category := some "toys" } wProducts
      = wProducts.filter (fun p => p.category == "toys") ∧
    productsResolve { skip := some 2, limit := some 3 } wProducts
      = (wProducts.drop 2).take 3 ∧
    ((wProducts.drop 2).take 3).length = 3 := by
  have h := category_filter_and_pagination_exact "toys" wProducts
    (by decide) (by decide)
  exact ⟨by decide, by decide, h.1, h.2.1, h.2.2⟩

/-! ## C5 — register followed by login round-trips the admin flag -/

/-- C5: when `register(u, p, a)` succeeds (no user named `u` exists), a
subsequent `login(u, p)` against the resulting store succeeds and returns a
token that `jwtVerify` accepts at the login instant, and the decoded
identity's `isAdmin` equals the flag `a` given at registration. -/
theorem register_then_login_roundtrip
    (u p secret : String) (a : Bool) (salt now : Nat) (st : State)
    (h : ∀ usr ∈ st.users, usr.username ≠ u) :
    (register u p (some a) salt st).1 = Except.ok "User registered" ∧
    ∃ tok py,
      (login u p secret now (register u p (some a) salt st).2).1 = Except.ok tok ∧
      jwtVerify tok secret now = Except.ok py ∧
      py.isAdmin = a := by
  have hnone : st.users.find? (fun v => v.username == u) = none :=
    List.find?_eq_none.mpr (fun x hx => by simpa using h x hx)
  refine ⟨by simp [register, hnone], ?_⟩
  refine ⟨Token.signed ⟨st.nextUserId, a⟩ secret (now + 86400),
          ⟨st.nextUserId, a⟩, ?_, ?_, rfl⟩
  · simp [register, hnone, login, List.find?_append, bcryptCompare, bcryptHash, jwtSign]
  · have hexp : ¬ (now + 86400 ≤ now) := by omega
    simp [jwtVerify, hexp]

/-- C5 witness: registering "bob" with the admin flag on the concrete store,
then logging in, yields a verifiable token that decodes with
`isAdmin = true`. -/
theorem register_then_login_roundtrip_witness :
    (∀ usr ∈ wState.users, usr.username ≠ "bob") ∧
    (register "bob" "pw" (some true) 7 wState).1 = Except.ok "User registered" ∧
    ∃ tok py,
      (login "bob" "pw" "sec" 1000 (register "bob" "pw" (some true) 7 wState).2).1
        = Except.ok tok ∧
      jwtVerify tok "sec" 1000 = Except.ok py ∧
      py.isAdmin = true :=
  ⟨by decide, register_then_login_roundtrip "bob" "pw" "sec" true 7 1000 wState (by decide)⟩

/-! ## C6 — registration: conflict on duplicates, salted hash otherwise -/

/-- C6: registering a username that already exists fails with the Conflict
error and leaves the store unchanged (no user inserted); registering a fresh
username appends exactly one user whose stored password is the salted bcrypt
hash of the submitted password — never the plaintext — and returns the plain
success marker "User registered" rather than a credential. -/
theorem register_conflict_or_hashed_insert
    (u p : String) (ia : Option Bool) (salt : Nat) (st : State) :
    ((∃ usr ∈ st.users, usr.username = u) →
        register u p ia salt st = (Except.error ApiError.conflict, st)) ∧
    ((∀ usr ∈ st.users, usr.username ≠ u) →
        register u p ia salt st =
          (Except.ok "User registered",
           { st with
               users := st.users ++ [⟨st.nextUserId, u, bcryptHash p salt, ia.getD false⟩]
               nextUserId := st.nextUserId + 1 })) := by
  constructor
  · rintro ⟨usr, hm, hu⟩
    have hsome : (st.users.find? (fun v => v.username == u)).isSome :=
      List.find?_isSome.mpr ⟨usr, hm, by simp [hu]⟩
    obtain ⟨w, hw⟩ := Option.isSome_iff_exists.mp hsome
    simp [register, hw]
  · intro h
    have hnone : st.users.find? (fun v => v.username == u) = none :=
      List.find?_eq_none.mpr (fun x hx => by simpa using h x hx)
    simp [register, hnone]

/-- C6 witness: re-registering "alice" conflicts and changes nothing;
registering "bob" stores the salted hash. -/
theorem register_conflict_or_hashed_insert_witness :
    register "alice" "other" none 9 wState = (Except.error ApiError.conflict, wState) ∧
    register "bob" "pw" (some true) 9 wState =
      (Except.ok "User registered",
       { wState with
           users := wState.users ++ [⟨wState.nextUserId, "bob", bcryptHash "pw" 9, (some true).getD false⟩]
           nextUserId := wState.nextUserId + 1 }) :=
  ⟨(register_conflict_or_hashed_insert "alice" "other" none 9 wState).1
      ⟨wAlice, by decide, rfl⟩,
   (register_conflict_or_hashed_insert "bob" "pw" (some true) 9 wState).2 (by decide)⟩

/-! ## C7 — login: NotFound, InvalidCredentials, or a token; never a write -/

/-- C7: `login(u, p)` fails with the NotFound error when no user is named
`u`, fails with the InvalidCredentials error when the password does not
verify against the stored hash, and otherwise returns the issued token; in
every branch the returned store state is the input state — no mutation. -/
theorem login_branch_outcomes (u p secret : String) (now : Nat) (st : State) :
    ((∀ usr ∈ st.users, usr.username ≠ u) →
        login u p secret now st = (Except.error ApiError.userNotFound, st)) ∧
    (∀ usr, st.users.find? (fun v => v.username == u) = some usr →
        (bcryptCompare p usr.password = false →
            login u p secret now st = (Except.error ApiError.invalidCredentials, st)) ∧
        (bcryptCompare p usr.password = true →
            login u p secret now st =
              (Except.ok (jwtSign ⟨usr.id, usr.isAdmin⟩ secret (now + 86400)), st))) := by
  constructor
  · intro h
    have hnone : st.users.find? (fun v => v.username == u) = none :=
      List.find?_eq_none.mpr (fun x hx => by simpa using h x hx)
    simp [login, hnone]
  · intro usr hfind
    constructor <;> intro hcmp <;> simp [login, hfind, hcmp]

/-- C7 witness: the three login branches on the concrete store — an unknown
username, alice with a wrong password, and alice with her password. -/
theorem login_branch_outcomes_witness :
    login "nobody" "x" "sec" 0 wState = (Except.error ApiError.userNotFound, wState) ∧
    login "alice" "wrong" "sec" 0 wState
      = (Except.error ApiError.invalidCredentials, wState) ∧
    login "alice" "pw1" "sec" 0 wState
      = (Except.ok (jwtSign ⟨wAlice.id, wAlice.isAdmin⟩ "sec" (0 + 86400)), wState) :=
  ⟨(login_branch_outcomes "nobody" "x" "sec" 0 wState).1 (by decide),
   ((login_branch_outcomes "alice" "wrong" "sec" 0 wState).2 wAlice (by decide)).1 (by decide),
   ((login_branch_outcomes "alice" "pw1" "sec" 0 wState).2 wAlice (by decide)).2 (by decide)⟩

/-! ## C8 — update/delete of a missing id fail NotFound, store unchanged -/

/-- C8: an admin's `updateProduct` or `deleteProduct` naming an id no stored
product carries fails with the NotFound error, and the returned store state
is the unchanged input state. -/
theorem update_delete_missing_id_not_found
    (uargs : UpdateProductArgs) (pid : Nat) (py : Payload) (st : State)
    (hadm : py.isAdmin = true)
    (h1 : ∀ q ∈ st.products, q.id ≠ uargs.id)
    (h2 : ∀ q ∈ st.products, q.id ≠ pid) :
    updateProduct uargs (some py) st = (Except.error ApiError.productNotFound, st) ∧
    deleteProduct pid (some py) st = (Except.error ApiError.productNotFound, st) := by
  have hf1 : st.products.find? (fun q => q.id == uargs.id) = none :=
    List.find?_eq_none.mpr (fun q hq => by simpa using h1 q hq)
  have hf2 : st.products.find? (fun q => q.id == pid) = none :=
    List.find?_eq_none.mpr (fun q hq => by simpa using h2 q hq)
  constructor <;> simp [updateProduct, deleteProduct, isAdminUser, hadm, hf1, hf2]

/-- C8 witness: id 99 is absent from the concrete store; an admin's update
and delete both fail NotFound and leave the store as it was. -/
theorem update_delete_missing_id_not_found_witness :
    updateProduct { id := 99 } (some ⟨7, true⟩) wState
      = (Except.error ApiError.productNotFound, wState) ∧
    deleteProduct 99 (some ⟨7, true⟩) wState
      = (Except.error ApiError.productNotFound, wState) :=
  update_delete_missing_id_not_found { id := 99 } 99 ⟨7, true⟩ wState rfl
    (by decide) (by decide)

/-! ## C10 — argument presence is decided by JavaScript truthiness -/

/-- C10: an empty-string `category` or `brand`, and a zero `minPrice`,
`maxPrice`, `skip` or `limit`, impose no constraint on the result of
`products` — each is treated exactly as if the argument had not been
supplied, whatever the remaining arguments and the store are. -/
theorem falsy_args_impose_no_constraint (args : ProductsArgs) (store : List Product) :
    productsResolve { args with category := some "" } store
      = productsResolve { args with category := none } store ∧
    productsResolve { args with brand := some "" } store
      = productsResolve { args with brand := none } store ∧
    productsResolve { args with minPrice := some 0 } store
      = productsResolve { args with minPrice := none } store ∧
    productsResolve { args with maxPrice := some 0 } store
      = productsResolve { args with maxPrice := none } store ∧
    productsResolve { args with skip := some 0 } store
      = productsResolve { args with skip := none } store ∧
    productsResolve { args with limit := some 0 } store
      = productsResolve { args with limit := none } store := by
  refine ⟨?_, ?_, ?_, ?_, ?_, ?_⟩ <;>
    simp [productsResolve, buildFilter, truthyStr, truthyRat, truthyInt]

end Catalog
